import Mathlib

/-!
A shallow embedding of `src/datalayer.js` (the `Datalayer` class: its
constructor state, `validateRule`, `broadcast`, `addPlugin`,
`sendEventToPlugin` and the main initialization routine), together with
theorems settling the specification claims about it.

JavaScript values are modelled by the inductive `JSVal`; functions are
represented by an index into an external pure environment `FnEnv`.
Exceptions are modelled explicitly: operations that can throw return the
mutated state together with an `Option JSError` (JavaScript exceptions do
not roll back prior mutations) or an `Except JSError` result.  Wall-clock
time (`new Date().getTime()`) is modelled by an external clock function
`Nat → Nat` from the number of time reads made so far to the value read.
-/

/-- Model of a JavaScript runtime value.  Functions are referenced by an
index into a `FnEnv`; objects are association lists of own properties. -/
inductive JSVal where
  | undefined : JSVal
  | nullv : JSVal
  | boolean : Bool → JSVal
  | number : Int → JSVal
  | string : String → JSVal
  | object : List (String × JSVal) → JSVal
  | func : Nat → JSVal

/-- Model of a thrown JavaScript exception. -/
inductive JSError where
  | typeError : String → JSError
  | jsError : String → JSError
deriving DecidableEq

/-- Environment giving meaning to function values: the function with index
`fid` applied to one argument.  Rule functions in the source are pure. -/
def FnEnv : Type := Nat → JSVal → JSVal

/-- JavaScript truthiness of a value. -/
def JSVal.truthy : JSVal → Bool
  | .undefined => false
  | .nullv => false
  | .boolean b => b
  | .number n => decide (n ≠ 0)
  | .string s => decide (s ≠ "")
  | .object _ => true
  | .func _ => true

/-- `typeof v === 'boolean'`. -/
def JSVal.isBooleanType : JSVal → Bool
  | .boolean _ => true
  | _ => false

/-- `typeof v === 'function'`. -/
def JSVal.isFunctionType : JSVal → Bool
  | .func _ => true
  | _ => false

/-- Strict equality `v === true`. -/
def JSVal.strictTrue : JSVal → Bool
  | .boolean true => true
  | _ => false

/-- Property access `v[k]` as in the source: reading a property of `null`
or `undefined` throws a TypeError; a missing property (or a property of a
non-object primitive) reads as `undefined`. -/
def JSVal.getField : JSVal → String → Except JSError JSVal
  | .undefined, k => .error (.typeError ("Cannot read properties of undefined (reading " ++ k ++ ")"))
  | .nullv, k => .error (.typeError ("Cannot read properties of null (reading " ++ k ++ ")"))
  | .object fields, k => .ok ((fields.lookup k).getD .undefined)
  | _, _ => .ok .undefined

/-- Total property access, usable where the receiver is known not to be
`null`/`undefined` (e.g. after a short-circuit guard in the source). -/
def JSVal.fieldD : JSVal → String → JSVal
  | .object fields, k => (fields.lookup k).getD .undefined
  | _, _ => .undefined

/-- Function application `f(arg)`: calling a non-function throws. -/
def jsCall (env : FnEnv) (f : JSVal) (arg : JSVal) : Except JSError JSVal :=
  match f with
  | .func fid => .ok (env fid arg)
  | _ => .error (.typeError "is not a function")

/-- JavaScript `a || b` (evaluates to `a` when truthy, else `b`). -/
def jsOr (a b : JSVal) : JSVal :=
  if a.truthy then a else b

/-- Embedding of `Datalayer.validateRule(rule)` (src/datalayer.js:55-65).
`globalData` and `testModeActive` stand for `this.globalData` and
`this.testModeActive`.  The source:
boolean rules are returned as-is; function rules are applied to the global
data; otherwise the source evaluates
`!rule.test || (rule.test === true && this.testModeActive)` and on success
calls `rule.rule(this.globalData)`, else returns `false`. -/
def validateRule (env : FnEnv) (testModeActive : Bool) (globalData : JSVal)
    (rule : JSVal) : Except JSError JSVal :=
  if rule.isBooleanType then
    .ok rule
  else if rule.isFunctionType then
    jsCall env rule globalData
  else
    match rule.getField "test" with
    | .error e => .error e
    | .ok t =>
      if !t.truthy || (t.strictTrue && testModeActive) then
        match rule.getField "rule" with
        | .error e => .error e
        | .ok r => jsCall env r globalData
      else
        .ok (.boolean false)

/-- A function environment in which every function returns `true`
(models the rule `() => true` used in the spec's examples). -/
def constTrueEnv : FnEnv := fun _ _ => .boolean true

/-- A loaded plugin instance (an element of `this.plugins`).
`hasHandleEvent` models whether `typeof plugin.handleEvent === 'function'`;
`handlerThrows` models a handler that throws when invoked; `received`
records, in order, the `(eventName, eventData, timestampMillis)` triples
passed to `handleEvent`. -/
structure PluginInst where
  pid : String
  hasHandleEvent : Bool
  handlerThrows : Bool
  config : JSVal
  received : List (String × JSVal × Nat)

/-- A plugin class (constructor function): `pid` is the value of its
static `getID()`; instances built from it behave per the two flags. -/
structure PluginClass where
  pid : String
  hasHandleEvent : Bool
  handlerThrows : Bool

/-- The mutable state of a `Datalayer` instance (src/datalayer.js:24-40),
plus bookkeeping for the readiness promise, emitted `console.warn`
messages, and the number of `new Date().getTime()` reads performed.
`inited` is the source's `this.initialized` flag. -/
structure DLState where
  inited : Bool
  testModeActive : Bool
  globalData : JSVal
  globalConfig : JSVal
  plugins : List PluginInst
  broadcastQueue : List (String × JSVal)
  readyResolved : Bool
  readyRejected : Bool
  warnings : List String
  timeCalls : Nat

/-- The constructor `new Datalayer()` with a given test-mode flag
(the flag itself comes from cookies/URL, external collaborators). -/
def newDatalayer (testMode : Bool) : DLState :=
  { inited := false, testModeActive := testMode,
    globalData := .object [], globalConfig := .object [],
    plugins := [], broadcastQueue := [],
    readyResolved := false, readyRejected := false,
    warnings := [], timeCalls := 0 }

/-- Embedding of the static `Datalayer.sendEventToPlugin` (lines 259-264):
if `typeof plugin.handleEvent === 'function'` it calls
`plugin.handleEvent(eventName, eventData, (new Date()).getTime())` —
reading the clock at delivery time — otherwise it silently does nothing.
Returns the updated plugin, the updated time-read counter, and the
exception thrown by the handler, if any. -/
def sendEventToPlugin (clock : Nat → Nat) (timeCalls : Nat) (p : PluginInst)
    (eventName : String) (eventData : JSVal) : PluginInst × Nat × Option JSError :=
  if p.hasHandleEvent then
    let t := clock timeCalls
    if p.handlerThrows then
      (p, timeCalls + 1, some (.jsError "handler threw"))
    else
      ({ p with received := p.received ++ [(eventName, eventData, t)] }, timeCalls + 1, none)
  else
    (p, timeCalls, none)

/-- The `this.plugins.forEach(...)` loop of `broadcast` (lines 99-101):
deliver to each plugin in list order; a thrown handler exception aborts
the loop and propagates. -/
def broadcastDeliver (clock : Nat → Nat) (eventName : String) (eventData : JSVal) :
    List PluginInst → Nat → List PluginInst × Nat × Option JSError
  | [], tc => ([], tc, none)
  | p :: rest, tc =>
    match sendEventToPlugin clock tc p eventName eventData with
    | (p1, tc1, some e) => (p1 :: rest, tc1, some e)
    | (p1, tc1, none) =>
      match broadcastDeliver clock eventName eventData rest tc1 with
      | (rest1, tc2, err) => (p1 :: rest1, tc2, err)

/-- Embedding of `Datalayer.broadcast(name, data)` (lines 98-104): first
deliver to every currently loaded plugin in registration order, then push
`[name, data]` onto `this.broadcastQueue`.  If a handler throws, the
exception propagates and the push never happens. -/
def broadcast (clock : Nat → Nat) (st : DLState) (eventName : String)
    (eventData : JSVal) : DLState × Option JSError :=
  let r := broadcastDeliver clock eventName eventData st.plugins st.timeCalls
  ({ st with plugins := r.1, timeCalls := r.2.1,
             broadcastQueue :=
               match r.2.2 with
               | some _ => st.broadcastQueue
               | none => st.broadcastQueue ++ [(eventName, eventData)] },
   r.2.2)

/-- Default-parameter resolution for `addPlugin(pluginClass, config = {})`:
passing `undefined` (or omitting the argument) yields `{}`. -/
def defaultCfg : JSVal → JSVal
  | .undefined => .object []
  | c => c

/-- Embedding of `Datalayer.addPlugin(pluginClass, config = {})`
(lines 139-151).  It resolves the id, constructs the instance with
effective config `this.globalConfig[pluginId] || config`, pushes it onto
`this.plugins`, and then runs
`for (i = 0; i < this.broadcastQueue.length; i += 1) { const event = this.broadcastHistory[i]; ... }`.
`this.broadcastHistory` is never assigned anywhere in the class (the
constructor only defines `this.broadcastQueue`), so it reads as
`undefined` and indexing it throws a TypeError on the first iteration:
whenever the queue is non-empty the loop throws before delivering
anything, with the freshly constructed plugin already pushed. -/
def addPlugin (st : DLState) (cls : PluginClass) (cfg : JSVal) : DLState × Option JSError :=
  match st.globalConfig.getField cls.pid with
  | .error e => (st, some e)
  | .ok gcfg =>
    let plugin : PluginInst :=
      { pid := cls.pid, hasHandleEvent := cls.hasHandleEvent,
        handlerThrows := cls.handlerThrows,
        config := jsOr gcfg (defaultCfg cfg), received := [] }
    let st1 := { st with plugins := st.plugins ++ [plugin] }
    if st1.broadcastQueue.length = 0 then
      (st1, none)
    else
      (st1, some (.typeError "Cannot read properties of undefined (reading 0)"))

/-- The page-data check of the validation block (lines 176-178):
`!data.page || !data.page.type || !data.page.name`, negated.  After
`data = options.data || {}` the receiver of each access is never
`null`/`undefined` (the short-circuit guards inner accesses), so the
total `fieldD` coincides with JavaScript property access here. -/
def pageDataOk (data : JSVal) : Bool :=
  (data.fieldD "page").truthy
    && ((data.fieldD "page").fieldD "type").truthy
    && ((data.fieldD "page").fieldD "name").truthy

/-- The site-data check (lines 179-181): `!data.site || !data.site.id`, negated. -/
def siteDataOk (data : JSVal) : Bool :=
  (data.fieldD "site").truthy && ((data.fieldD "site").fieldD "id").truthy

/-- The user-data check (lines 182-184): `!data.user`, negated. -/
def userDataOk (data : JSVal) : Bool :=
  (data.fieldD "user").truthy

/-- One entry of the `options.plugins` list: `{ type, config, rule }`. -/
structure PluginOption where
  type : PluginClass
  config : JSVal
  rule : JSVal

/-- The argument of the main initialization routine:
`{ data, config, plugins }`.  `data` and `config` are arbitrary JS values
(the source applies `|| {}` to each); an absent `plugins` is the empty
list (the source applies `|| []`). -/
structure InitOptions where
  data : JSVal
  config : JSVal
  plugins : List PluginOption

/-- The plugin-admission loop of the initialization routine (lines
188-194): for each option, evaluate its rule against the current global
data and, if the result is truthy, call `addPlugin`; a thrown exception
(from rule evaluation or from `addPlugin`) aborts the loop and
propagates, keeping mutations made so far. -/
def admitPlugins (env : FnEnv) : DLState → List PluginOption → DLState × Option JSError
  | st, [] => (st, none)
  | st, po :: rest =>
    match validateRule env st.testModeActive st.globalData po.rule with
    | .error e => (st, some e)
    | .ok v =>
      if v.truthy then
        match addPlugin st po.type po.config with
        | (st1, some e) => (st1, some e)
        | (st1, none) => admitPlugins env st1 rest
      else
        admitPlugins env st rest

/-- Embedding of the main initialization routine `Datalayer.initialize(options)`
(lines 157-223).  If `this.initialized` is already set it warns
(`console.warn('already initialized')`) and returns `false`.  Otherwise it
takes `data = options.data || {}`, stores `this.globalConfig = options.config || {}`
and `this.globalData = data` (the markup scan `scanForDataMarkup` is an
external DOM collaborator modelled as contributing no data), validates
page, site and user data in that order (throwing on the first violation,
with the stores above already performed), admits plugins via their rules,
sets `this.initialized = true`, broadcasts the synthetic `"initialize"`
event with the global data as payload, resolves the readiness promise and
exits at the bare `return;` on line 203 — i.e. it returns `undefined`.
The statements after that bare `return` (event-markup scan, method-queue
installation, `return true`) are unreachable and reference undeclared
identifiers, so they are absent from the embedding. -/
def dlInit (env : FnEnv) (clock : Nat → Nat) (st : DLState) (opts : InitOptions) :
    DLState × Except JSError JSVal :=
  if st.inited then
    ({ st with warnings := st.warnings ++ ["already initialized"] }, .ok (.boolean false))
  else
    let data := jsOr opts.data (.object [])
    let st1 := { st with globalConfig := jsOr opts.config (.object []), globalData := data }
    if !(pageDataOk data) then
      (st1, .error (.jsError "Supplied DALPageData is invalid or missing"))
    else if !(siteDataOk data) then
      (st1, .error (.jsError "Supplied DALSiteData is invalid or missing"))
    else if !(userDataOk data) then
      (st1, .error (.jsError "Supplied DALUserData is invalid or missing"))
    else
      match admitPlugins env st1 opts.plugins with
      | (st2, some e) => (st2, .error e)
      | (st2, none) =>
        let st3 := { st2 with inited := true }
        match broadcast clock st3 "initialize" st3.globalData with
        | (st4, some e) => (st4, .error e)
        | (st4, none) => ({ st4 with readyResolved := true }, .ok .undefined)

/-- Concrete valid global data, mirroring the fixture of the repository's
test suite (`globalDataMock`). -/
def validData : JSVal :=
  .object [("page", .object [("type", .string "bar"), ("name", .string "foo")]),
           ("site", .object [("id", .string "mysite")]),
           ("user", .object [])]

/-- A well-behaved plugin class, mirroring the test suite's `MockPlugin`. -/
def mockClass : PluginClass :=
  { pid := "test/mockPlugin", hasHandleEvent := true, handlerThrows := false }

/-- An entity without a callable `handleEvent` (e.g. the plain object `{}`). -/
def noHandlerClass : PluginClass :=
  { pid := "test/noHandler", hasHandleEvent := false, handlerThrows := false }

/-- The identity clock: the n-th time read returns n. -/
def natClock : Nat → Nat := fun n => n

/-- Spec-side count of plugins that will actually be delivered to (those
with a callable `handleEvent`). -/
def countDeliverable (ps : List PluginInst) : Nat :=
  (ps.filter (fun p => p.hasHandleEvent)).length

/-- Spec-side description of one broadcast's deliveries: each plugin with
a callable `handleEvent`, in list (registration) order, receives exactly
one new `(eventName, eventData, timestamp)` entry, whose timestamp is the
clock value at its own delivery; other plugins are untouched. -/
def deliverAll (clock : Nat → Nat) (eventName : String) (eventData : JSVal) :
    List PluginInst → Nat → List PluginInst
  | [], _ => []
  | p :: rest, tc =>
    if p.hasHandleEvent then
      { p with received := p.received ++ [(eventName, eventData, clock tc)] }
        :: deliverAll clock eventName eventData rest (tc + 1)
    else
      p :: deliverAll clock eventName eventData rest tc

/-- Spec-side: the validation error the initialization routine raises for
given (already defaulted) data — the first violated check in the fixed
order page, site, user. -/
def validationErr (data : JSVal) : JSError :=
  if !(pageDataOk data) then .jsError "Supplied DALPageData is invalid or missing"
  else if !(siteDataOk data) then .jsError "Supplied DALSiteData is invalid or missing"
  else .jsError "Supplied DALUserData is invalid or missing"

/-- A value that is neither `null` nor `undefined` (property access on it
cannot throw). -/
def JSVal.notNullish : JSVal → Bool
  | .undefined => false
  | .nullv => false
  | _ => true

/-- A live instance of `mockClass` with no events received yet. -/
def mockInst : PluginInst :=
  { pid := "test/mockPlugin", hasHandleEvent := true, handlerThrows := false,
    config := .object [], received := [] }

/-- A second well-behaved instance, to observe cross-plugin ordering. -/
def mockInst2 : PluginInst :=
  { pid := "test/mockPlugin2", hasHandleEvent := true, handlerThrows := false,
    config := .object [], received := [] }

/-- A live instance whose handler throws. -/
def throwingInst : PluginInst :=
  { pid := "test/throwingPlugin", hasHandleEvent := true, handlerThrows := true,
    config := .object [], received := [] }

/-- A live instance without a callable `handleEvent`. -/
def noHandlerInst : PluginInst :=
  { pid := "test/noHandler", hasHandleEvent := false, handlerThrows := false,
    config := .object [], received := [] }

/-- A fresh datalayer with one well-behaved plugin loaded. -/
def oneMockState : DLState := { newDatalayer false with plugins := [mockInst] }

/-- A fresh datalayer with two well-behaved plugins loaded. -/
def twoPluginState : DLState := { newDatalayer false with plugins := [mockInst, mockInst2] }

/-- A fresh datalayer with one throwing plugin loaded. -/
def oneThrowingState : DLState := { newDatalayer false with plugins := [throwingInst] }

/-- A fresh datalayer with an incapable plugin followed by a capable one. -/
def mixedState : DLState := { newDatalayer false with plugins := [noHandlerInst, mockInst] }

/-- The state of a fresh datalayer after `broadcast('x', {a: 1})` was
called before initialization: the event sits in `broadcastQueue`. -/
def preBroadcastState : DLState :=
  (broadcast natClock (newDatalayer false) "x" (.object [("a", .number 1)])).1

/-- Valid initialization options with no plugins. -/
def validOpts : InitOptions := { data := validData, config := .undefined, plugins := [] }

/-- Valid initialization options admitting one plugin with rule `true`. -/
def onePluginOpts : InitOptions :=
  { data := validData, config := .undefined,
    plugins := [{ type := mockClass, config := .undefined, rule := .boolean true }] }

/-- Invalid options: page data present but empty, and a non-empty global
config that lets the config overwrite be observed. -/
def badPageOpts : InitOptions :=
  { data := .object [("page", .object [])],
    config := .object [("k", .number 1)], plugins := [] }

/-- Data of the shape the validation block inspects: a page object with
`type` and `name` strings, a site object with an `id` string, and an
arbitrary user value. -/
def pageSiteUserData (pt pn si : String) (u : JSVal) : JSVal :=
  .object [("page", .object [("type", .string pt), ("name", .string pn)]),
           ("site", .object [("id", .string si)]), ("user", u)]

theorem countDeliverable_cons (p : PluginInst) (rest : List PluginInst) :
    countDeliverable (p :: rest)
      = if p.hasHandleEvent then countDeliverable rest + 1 else countDeliverable rest := by
  simp only [countDeliverable, List.filter_cons]
  by_cases hh : p.hasHandleEvent <;> simp [hh]

/-- When no loaded plugin's handler throws, the delivery loop of
`broadcast` performs exactly the deliveries described by `deliverAll`,
consumes one clock read per deliverable plugin, and raises no exception. -/
theorem broadcastDeliver_no_throw (clock : Nat → Nat) (n : String) (d : JSVal) :
    ∀ (ps : List PluginInst) (tc : Nat), ps.all (fun p => !p.handlerThrows) = true →
    broadcastDeliver clock n d ps tc
      = (deliverAll clock n d ps tc, tc + countDeliverable ps, none) := by
  intro ps
  induction ps with
  | nil =>
    intro tc _
    simp [broadcastDeliver, deliverAll, countDeliverable]
  | cons p rest ih =>
    intro tc h
    rw [List.all_cons, Bool.and_eq_true] at h
    obtain ⟨hp, hrest⟩ := h
    have hp' : p.handlerThrows = false := by simpa using hp
    by_cases hh : p.hasHandleEvent
    · have hsend : sendEventToPlugin clock tc p n d
          = ({ p with received := p.received ++ [(n, d, clock tc)] }, tc + 1, none) := by
        simp [sendEventToPlugin, hh, hp']
      simp only [broadcastDeliver, hsend, ih (tc + 1) hrest, deliverAll, hh, if_true,
        countDeliverable_cons, Prod.mk.injEq]
      refine ⟨trivial, ?_, trivial⟩
      omega
    · have hsend : sendEventToPlugin clock tc p n d = (p, tc, none) := by
        simp [sendEventToPlugin, hh]
      simp only [broadcastDeliver, hsend, ih tc hrest, deliverAll, hh, if_false,
        countDeliverable_cons, Prod.mk.injEq]
      simp

/-- If some plugin with a callable handler throws, the delivery loop of
`broadcast` raises an exception. -/
theorem broadcastDeliver_throws (clock : Nat → Nat) (n : String) (d : JSVal) :
    ∀ (ps : List PluginInst) (tc : Nat),
    ps.any (fun p => p.hasHandleEvent && p.handlerThrows) = true →
    ((broadcastDeliver clock n d ps tc).2.2).isSome = true := by
  intro ps
  induction ps with
  | nil =>
    intro tc h
    simp at h
  | cons p rest ih =>
    intro tc h
    rw [List.any_cons, Bool.or_eq_true, Bool.and_eq_true] at h
    by_cases hh : p.hasHandleEvent
    · by_cases ht : p.handlerThrows
      · simp [broadcastDeliver, sendEventToPlugin, hh, ht]
      · have hrest : rest.any (fun p => p.hasHandleEvent && p.handlerThrows) = true := by
          rcases h with ⟨_, h2⟩ | h2
          · exact absurd h2 ht
          · exact h2
        have hsend : sendEventToPlugin clock tc p n d
            = ({ p with received := p.received ++ [(n, d, clock tc)] }, tc + 1, none) := by
          simp [sendEventToPlugin, hh, ht]
        have htail := ih (tc + 1) hrest
        simp only [broadcastDeliver, hsend]
        revert htail
        generalize broadcastDeliver clock n d rest (tc + 1) = r
        rcases r with ⟨ps1, tc1, err⟩
        intro htail
        simpa using htail
    · have hrest : rest.any (fun p => p.hasHandleEvent && p.handlerThrows) = true := by
        rcases h with ⟨h1, _⟩ | h2
        · exact absurd h1 hh
        · exact h2
      have hsend : sendEventToPlugin clock tc p n d = (p, tc, none) := by
        simp [sendEventToPlugin, hh]
      have htail := ih tc hrest
      simp only [broadcastDeliver, hsend]
      revert htail
      generalize broadcastDeliver clock n d rest tc = r
      rcases r with ⟨ps1, tc1, err⟩
      intro htail
      simpa using htail

/-- If validation fails, the initialization routine throws the first
violated check's error; at that point `globalData` and `globalConfig`
have already been overwritten, and no other field of the state has
changed (in particular it is still uninitialized, with its plugin list,
readiness flags and warnings untouched). -/
theorem dlInit_validation_failure (env : FnEnv) (clock : Nat → Nat) (st : DLState)
    (opts : InitOptions) (hinit : st.inited = false)
    (hbad : (pageDataOk (jsOr opts.data (.object []))
        && siteDataOk (jsOr opts.data (.object []))
        && userDataOk (jsOr opts.data (.object []))) = false) :
    dlInit env clock st opts
      = ({ st with globalData := jsOr opts.data (.object []),
                   globalConfig := jsOr opts.config (.object []) },
         .error (validationErr (jsOr opts.data (.object [])))) := by
  by_cases hp : pageDataOk (jsOr opts.data (.object [])) = true
  · by_cases hs : siteDataOk (jsOr opts.data (.object [])) = true
    · have hu : userDataOk (jsOr opts.data (.object [])) = false := by
        simpa [hp, hs] using hbad
      simp [dlInit, hinit, validationErr, hp, hs, hu]
    · have hs' : siteDataOk (jsOr opts.data (.object [])) = false := by
        simpa using hs
      simp [dlInit, hinit, validationErr, hp, hs']
  · have hp' : pageDataOk (jsOr opts.data (.object [])) = false := by
      simpa using hp
    simp [dlInit, hinit, validationErr, hp']

/-- Every run of the initialization routine falls into one of three
cases: the already-initialized no-op (warn and return `false`), a thrown
exception, or the successful first run, which returns `undefined` with
the state flipped to initialized and the readiness promise resolved. -/
theorem dlInit_spec (env : FnEnv) (clock : Nat → Nat) (st : DLState) (opts : InitOptions) :
    (st.inited = true ∧ dlInit env clock st opts
        = ({ st with warnings := st.warnings ++ ["already initialized"] }, .ok (.boolean false)))
  ∨ (st.inited = false ∧ ∃ e, (dlInit env clock st opts).2 = .error e)
  ∨ (st.inited = false ∧ (dlInit env clock st opts).2 = .ok .undefined
       ∧ (dlInit env clock st opts).1.inited = true
       ∧ (dlInit env clock st opts).1.readyResolved = true) := by
  by_cases hinit : st.inited = true
  · left
    exact ⟨hinit, by simp [dlInit, hinit]⟩
  · have hinit' : st.inited = false := by simpa using hinit
    right
    by_cases hp : pageDataOk (jsOr opts.data (.object [])) = true
    · by_cases hs : siteDataOk (jsOr opts.data (.object [])) = true
      · by_cases hu : userDataOk (jsOr opts.data (.object [])) = true
        · rcases ha : admitPlugins env
              { st with globalConfig := jsOr opts.config (.object []),
                        globalData := jsOr opts.data (.object []) } opts.plugins
            with ⟨st2, err⟩
          rw [hinit'] at ha
          cases err with
          | some e =>
            left
            exact ⟨hinit', e, by simp [dlInit, hinit', hp, hs, hu, ha]⟩
          | none =>
            rcases hb : broadcast clock { st2 with inited := true } "initialize"
                st2.globalData with ⟨st4, errb⟩
            cases errb with
            | some e =>
              left
              refine ⟨hinit', e, ?_⟩
              simp [dlInit, hinit', hp, hs, hu, ha, hb]
            | none =>
              right
              have h4 : st4.inited = true := by
                have := congrArg (fun r => r.1.inited) hb
                simpa [broadcast] using this.symm
              refine ⟨hinit', ?_, ?_, ?_⟩
              · simp [dlInit, hinit', hp, hs, hu, ha, hb]
              · simp [dlInit, hinit', hp, hs, hu, ha, hb, h4]
              · simp [dlInit, hinit', hp, hs, hu, ha, hb]
        · left
          have hu' : userDataOk (jsOr opts.data (.object [])) = false := by simpa using hu
          exact ⟨hinit', .jsError "Supplied DALUserData is invalid or missing",
            by simp [dlInit, hinit', hp, hs, hu']⟩
      · left
        have hs' : siteDataOk (jsOr opts.data (.object [])) = false := by simpa using hs
        exact ⟨hinit', .jsError "Supplied DALSiteData is invalid or missing",
          by simp [dlInit, hinit', hp, hs']⟩
    · left
      have hp' : pageDataOk (jsOr opts.data (.object [])) = false := by simpa using hp
      exact ⟨hinit', .jsError "Supplied DALPageData is invalid or missing",
        by simp [dlInit, hinit', hp']⟩

/-- C7: rule evaluation behaves as specified: a boolean rule is returned
as-is; a function rule is invoked on the global data and its result
returned; a structured rule `{rule, test}` returns `rule(data)` when
`test` is omitted or `false`, or when `test` is `true` and test mode is
active, and returns `false` otherwise — in particular
`evaluate(true, data, false) = true`,
`evaluate({rule: () => true, test: true}, data, false) = false`, and
`evaluate({rule: () => true, test: true}, data, true) = true`. -/
theorem claim_C7_rule_evaluation :
    (∀ (env : FnEnv) (tm : Bool) (d : JSVal) (b : Bool),
       validateRule env tm d (.boolean b) = .ok (.boolean b))
  ∧ (∀ (env : FnEnv) (tm : Bool) (d : JSVal) (fid : Nat),
       validateRule env tm d (.func fid) = .ok (env fid d))
  ∧ (∀ (env : FnEnv) (tm : Bool) (d : JSVal) (fid : Nat),
       validateRule env tm d (.object [("rule", .func fid)]) = .ok (env fid d))
  ∧ (∀ (env : FnEnv) (tm : Bool) (d : JSVal) (fid : Nat),
       validateRule env tm d (.object [("rule", .func fid), ("test", .boolean false)])
         = .ok (env fid d))
  ∧ (∀ (env : FnEnv) (d : JSVal) (fid : Nat),
       validateRule env true d (.object [("rule", .func fid), ("test", .boolean true)])
         = .ok (env fid d))
  ∧ (∀ (env : FnEnv) (d : JSVal) (fid : Nat),
       validateRule env false d (.object [("rule", .func fid), ("test", .boolean true)])
         = .ok (.boolean false))
  ∧ validateRule constTrueEnv false (.object []) (.boolean true) = .ok (.boolean true)
  ∧ validateRule constTrueEnv false (.object [])
      (.object [("rule", .func 0), ("test", .boolean true)]) = .ok (.boolean false)
  ∧ validateRule constTrueEnv true (.object [])
      (.object [("rule", .func 0), ("test", .boolean true)]) = .ok (.boolean true) :=
  ⟨fun _ _ _ _ => rfl, fun _ _ _ _ => rfl, fun _ _ _ _ => rfl, fun _ _ _ _ => rfl,
   fun _ _ _ => rfl, fun _ _ _ => rfl, rfl, rfl, rfl⟩

/-- C8 counterexample: evaluating the malformed rule `null` does not
return `false` with a surfaced warning — it throws a TypeError on the
property access `rule.test`, so rule evaluation is not total over
arbitrary rule values. -/
theorem claim_C8_counterexample :
    validateRule constTrueEnv false (.object []) .nullv
      = .error (.typeError "Cannot read properties of null (reading test)")
  ∧ ¬(validateRule constTrueEnv false (.object []) .nullv = .ok (.boolean false)) :=
  ⟨rfl, fun h => nomatch h⟩

theorem getField_notNullish (v : JSVal) (k : String) (h : v.notNullish = true) :
    v.getField k = .ok (v.fieldD k) := by
  cases v with
  | undefined => simp [JSVal.notNullish] at h
  | nullv => simp [JSVal.notNullish] at h
  | boolean b => rfl
  | number n => rfl
  | string s => rfl
  | object fs => rfl
  | func f => rfl

theorem jsCall_not_function (env : FnEnv) (f arg : JSVal) (h : f.isFunctionType = false) :
    jsCall env f arg = .error (.typeError "is not a function") := by
  cases f with
  | func fid => simp [JSVal.isFunctionType] at h
  | undefined => rfl
  | nullv => rfl
  | boolean b => rfl
  | number n => rfl
  | string s => rfl
  | object fs => rfl

/-- C8 (amended): rule evaluation is NOT total over malformed rules, and
no warning is ever surfaced.  For any rule that is neither a boolean nor
a function: `null` and `undefined` throw a TypeError on the `rule.test`
property access; any other value throws a TypeError when its test gate
(`!rule.test || (rule.test === true && testModeActive)`) passes and its
`rule` field is not callable (e.g. a number or an empty object, whose
`test` reads as `undefined`); and when the test gate blocks evaluation
(e.g. `{test: 1}`, or `{test: true}` outside test mode) it returns
`false` without consulting the `rule` field and without any warning. -/
theorem claim_C8_malformed_rule_eval :
    (∀ (env : FnEnv) (tm : Bool) (d : JSVal),
       validateRule env tm d .nullv
         = .error (.typeError "Cannot read properties of null (reading test)"))
  ∧ (∀ (env : FnEnv) (tm : Bool) (d : JSVal),
       validateRule env tm d .undefined
         = .error (.typeError "Cannot read properties of undefined (reading test)"))
  ∧ (∀ (env : FnEnv) (tm : Bool) (d rule : JSVal),
       rule.isBooleanType = false → rule.isFunctionType = false →
       rule.notNullish = true →
       (!(rule.fieldD "test").truthy || ((rule.fieldD "test").strictTrue && tm)) = true →
       (rule.fieldD "rule").isFunctionType = false →
       validateRule env tm d rule = .error (.typeError "is not a function"))
  ∧ (∀ (env : FnEnv) (tm : Bool) (d rule : JSVal),
       rule.isBooleanType = false → rule.isFunctionType = false →
       rule.notNullish = true →
       (!(rule.fieldD "test").truthy || ((rule.fieldD "test").strictTrue && tm)) = false →
       validateRule env tm d rule = .ok (.boolean false)) := by
  refine ⟨fun _ _ _ => rfl, fun _ _ _ => rfl, ?_, ?_⟩
  · intro env tm d rule hb hf hnn hgate hr
    simp [validateRule, hb, hf, getField_notNullish rule _ hnn, hgate,
      jsCall_not_function env _ d hr]
  · intro env tm d rule hb hf hnn hgate
    simp [validateRule, hb, hf, getField_notNullish rule _ hnn, hgate]

/-- C8 witness: the number `5` (test gate passes, `rule` field not
callable) throws, while `{test: 1}` (test gate blocked) returns `false`. -/
theorem claim_C8_malformed_rule_eval_witness :
    ((JSVal.number 5).isBooleanType = false
      ∧ (JSVal.number 5).isFunctionType = false
      ∧ (JSVal.number 5).notNullish = true
      ∧ (!((JSVal.number 5).fieldD "test").truthy
          || (((JSVal.number 5).fieldD "test").strictTrue && false)) = true
      ∧ ((JSVal.number 5).fieldD "rule").isFunctionType = false
      ∧ validateRule constTrueEnv false (.object []) (.number 5)
          = .error (.typeError "is not a function"))
  ∧ ((JSVal.object [("test", .number 1)]).isBooleanType = false
      ∧ (JSVal.object [("test", .number 1)]).isFunctionType = false
      ∧ (JSVal.object [("test", .number 1)]).notNullish = true
      ∧ (!((JSVal.object [("test", .number 1)]).fieldD "test").truthy
          || (((JSVal.object [("test", .number 1)]).fieldD "test").strictTrue && false)) = false
      ∧ validateRule constTrueEnv false (.object []) (.object [("test", .number 1)])
          = .ok (.boolean false)) :=
  ⟨⟨rfl, rfl, rfl, rfl, rfl,
    claim_C8_malformed_rule_eval.2.2.1 constTrueEnv false (.object []) (.number 5)
      rfl rfl rfl rfl rfl⟩,
   ⟨rfl, rfl, rfl, rfl,
    claim_C8_malformed_rule_eval.2.2.2 constTrueEnv false (.object [])
      (.object [("test", .number 1)]) rfl rfl rfl rfl⟩⟩

/-- C1 (code bug): a broadcast before admission is recorded in
`broadcastQueue`, but admitting a plugin afterwards does NOT replay it:
the catch-up loop of `addPlugin` reads `this.broadcastHistory[i]` — a
property that is never assigned (the queue lives in
`this.broadcastQueue`) — so it throws a TypeError on its first iteration
and the new plugin receives no events at all; the same TypeError aborts
an initialization that admits a plugin after a pre-initialize
`broadcast('x', {a: 1})`, so the plugin receives neither `'x'` nor the
synthetic `'initialize'` event. -/
theorem claim_C1_catchup_crashes :
    (broadcast natClock (newDatalayer false) "x" (.object [("a", .number 1)])).2 = none
  ∧ preBroadcastState.broadcastQueue = [("x", .object [("a", .number 1)])]
  ∧ (addPlugin preBroadcastState mockClass .undefined).2
      = some (.typeError "Cannot read properties of undefined (reading 0)")
  ∧ ((addPlugin preBroadcastState mockClass .undefined).1.plugins.map (fun p => p.received))
      = [[]]
  ∧ (dlInit constTrueEnv natClock preBroadcastState onePluginOpts).2
      = .error (.typeError "Cannot read properties of undefined (reading 0)")
  ∧ ((dlInit constTrueEnv natClock preBroadcastState onePluginOpts).1.plugins.map
      (fun p => p.received)) = [[]] :=
  ⟨rfl, rfl, rfl, rfl, rfl, rfl⟩

/-- C2 counterexample: `broadcast` does NOT append the event to the
history before delivery: with a single plugin whose handler throws, the
broadcast raises the handler's exception and `broadcastQueue` is left
empty — the event was delivered (attempted) but never recorded, contrary
to the claim that a failing handler still leaves the event in history. -/
theorem claim_C2_counterexample :
    (broadcast natClock oneThrowingState "x" (.object [])).2
      = some (.jsError "handler threw")
  ∧ (broadcast natClock oneThrowingState "x" (.object [])).1.broadcastQueue = [] :=
  ⟨rfl, rfl⟩

/-- C2 (amended): `broadcast(name, payload)` first delivers the event
exactly once to each currently-registered plugin with a callable
`handleEvent`, in registration order (as described by `deliverAll`), and
only afterwards appends `[name, payload]` to the history; consequently,
when every handler returns normally the event ends up recorded, but if a
handler throws during delivery the event is never added to the history. -/
theorem claim_C2_broadcast_delivers_then_appends (clock : Nat → Nat) (st : DLState)
    (n : String) (d : JSVal) :
    (st.plugins.all (fun p => !p.handlerThrows) = true →
       broadcast clock st n d
         = ({ st with plugins := deliverAll clock n d st.plugins st.timeCalls,
                      timeCalls := st.timeCalls + countDeliverable st.plugins,
                      broadcastQueue := st.broadcastQueue ++ [(n, d)] }, none))
  ∧ (st.plugins.any (fun p => p.hasHandleEvent && p.handlerThrows) = true →
       (broadcast clock st n d).1.broadcastQueue = st.broadcastQueue
         ∧ ((broadcast clock st n d).2).isSome = true) := by
  constructor
  · intro h
    simp only [broadcast, broadcastDeliver_no_throw clock n d st.plugins st.timeCalls h]
  · intro h
    have hsome := broadcastDeliver_throws clock n d st.plugins st.timeCalls h
    obtain ⟨e, he⟩ := Option.isSome_iff_exists.mp hsome
    constructor
    · simp only [broadcast, he]
    · simp only [broadcast, he, Option.isSome_some]

/-- C2 witness: one well-behaved plugin, no handler throws, so the
broadcast is delivered and then recorded. -/
theorem claim_C2_broadcast_delivers_then_appends_witness :
    (oneMockState.plugins.all (fun p => !p.handlerThrows) = true)
  ∧ broadcast natClock oneMockState "x" (.object [])
      = ({ oneMockState with
            plugins := deliverAll natClock "x" (.object []) oneMockState.plugins
              oneMockState.timeCalls,
            timeCalls := oneMockState.timeCalls + countDeliverable oneMockState.plugins,
            broadcastQueue := oneMockState.broadcastQueue ++ [("x", .object [])] }, none) :=
  ⟨rfl, (claim_C2_broadcast_delivers_then_appends natClock oneMockState "x" (.object [])).1 rfl⟩

/-- C3 counterexample: a single broadcast of one event to two plugins
passes timestamp 0 to the first and timestamp 1 to the second (with the
identity clock): the deliveries of one event do not carry one fixed
broadcast-time timestamp; moreover the recorded history entry is the
bare pair `("x", payload)` with no timestamp at all. -/
theorem claim_C3_counterexample :
    ((broadcast natClock twoPluginState "x" (.object [])).1.plugins.map
        (fun p => p.received))
      = [[("x", .object [], 0)], [("x", .object [], 1)]]
  ∧ (broadcast natClock twoPluginState "x" (.object [])).1.broadcastQueue
      = [("x", .object [])] :=
  ⟨rfl, rfl⟩

/-- C3 (amended): the timestamp a plugin's `handleEvent` receives is read
from the wall clock at the moment of that particular delivery
(`new Date().getTime()` inside `sendEventToPlugin`), not fixed at
broadcast time: delivering to a single plugin stamps the event with the
clock's value at the current read counter, and the history records only
`[name, payload]`, so no original timestamp exists to be replayed. -/
theorem claim_C3_delivery_time_timestamp (clock : Nat → Nat) (st : DLState)
    (n : String) (d : JSVal) (p : PluginInst) (hps : st.plugins = [p])
    (hh : p.hasHandleEvent = true) (ht : p.handlerThrows = false) :
    broadcast clock st n d
      = ({ st with
            plugins := [{ p with received := p.received ++ [(n, d, clock st.timeCalls)] }],
            timeCalls := st.timeCalls + 1,
            broadcastQueue := st.broadcastQueue ++ [(n, d)] }, none) := by
  simp [broadcast, hps, broadcastDeliver, sendEventToPlugin, hh, ht]

/-- C3 witness: delivering "y" to the single mock plugin stamps it with
the identity clock's value at read 0. -/
theorem claim_C3_delivery_time_timestamp_witness :
    (oneMockState.plugins = [mockInst] ∧ mockInst.hasHandleEvent = true
      ∧ mockInst.handlerThrows = false)
  ∧ broadcast natClock oneMockState "y" .nullv
      = ({ oneMockState with
            plugins := [{ mockInst with
              received := mockInst.received ++ [("y", .nullv, natClock oneMockState.timeCalls)] }],
            timeCalls := oneMockState.timeCalls + 1,
            broadcastQueue := oneMockState.broadcastQueue ++ [("y", .nullv)] }, none) :=
  ⟨⟨rfl, rfl, rfl⟩,
   claim_C3_delivery_time_timestamp natClock oneMockState "y" .nullv mockInst rfl rfl rfl⟩

/-- C4: for every options value, calling the initialization routine a
second time after a successful first call returns `false`, appends the
'already initialized' warning, and performs no further state change:
the resulting state equals the first call's state except for that
warning — in particular the plugin list is unchanged, and neither
validation nor plugin admission runs again. -/
theorem claim_C4_second_init_noop (env env2 : FnEnv) (clock clock2 : Nat → Nat)
    (st : DLState) (opts1 opts2 : InitOptions)
    (h : (dlInit env clock st opts1).2 = .ok .undefined) :
    dlInit env2 clock2 (dlInit env clock st opts1).1 opts2
      = ({ (dlInit env clock st opts1).1 with
            warnings := (dlInit env clock st opts1).1.warnings ++ ["already initialized"] },
         .ok (.boolean false)) := by
  have hinited : (dlInit env clock st opts1).1.inited = true := by
    rcases dlInit_spec env clock st opts1 with ⟨_, heq⟩ | ⟨_, e, he⟩ | ⟨_, _, hi, _⟩
    · rw [heq] at h
      simp at h
    · rw [he] at h
      exact nomatch h
    · exact hi
  generalize hX : (dlInit env clock st opts1).1 = X at hinited ⊢
  simp [dlInit, hinited]

/-- C4 witness: a concrete successful first call followed by a second
call with the same options. -/
theorem claim_C4_second_init_noop_witness :
    (dlInit constTrueEnv natClock (newDatalayer false) validOpts).2 = .ok .undefined
  ∧ dlInit constTrueEnv natClock
      (dlInit constTrueEnv natClock (newDatalayer false) validOpts).1 validOpts
      = ({ (dlInit constTrueEnv natClock (newDatalayer false) validOpts).1 with
            warnings := (dlInit constTrueEnv natClock (newDatalayer false) validOpts).1.warnings
              ++ ["already initialized"] },
         .ok (.boolean false)) :=
  ⟨rfl, claim_C4_second_init_noop constTrueEnv constTrueEnv natClock natClock
    (newDatalayer false) validOpts validOpts rfl⟩

/-- C10: a first call to the initialization routine that returns
normally returns `undefined`, never `true`: execution exits at the bare
`return;` immediately after resolving the readiness promise (the result
state has the promise resolved), so none of the statements after it —
event-markup scanning, method-queue installation, the final
`return true` — ever runs. -/
theorem claim_C10_first_init_returns_undefined (env : FnEnv) (clock : Nat → Nat)
    (st : DLState) (opts : InitOptions) (v : JSVal)
    (hinit : st.inited = false) (h : (dlInit env clock st opts).2 = .ok v) :
    v = .undefined ∧ ¬(v = .boolean true)
      ∧ (dlInit env clock st opts).1.readyResolved = true := by
  rcases dlInit_spec env clock st opts with ⟨hi, _⟩ | ⟨_, e, he⟩ | ⟨_, hok, _, hr⟩
  · rw [hinit] at hi
    exact absurd hi (by simp)
  · rw [he] at h
    exact nomatch h
  · rw [hok] at h
    have hv : v = .undefined := by
      injection h with h1
      exact h1.symm
    exact ⟨hv, by simp [hv], hr⟩

/-- C10 witness: the concrete successful first call returns `undefined`
and resolves the readiness promise. -/
theorem claim_C10_first_init_returns_undefined_witness :
    (newDatalayer false).inited = false
  ∧ (dlInit constTrueEnv natClock (newDatalayer false) validOpts).2 = .ok .undefined
  ∧ (JSVal.undefined = .undefined ∧ ¬(JSVal.undefined = .boolean true)
      ∧ (dlInit constTrueEnv natClock (newDatalayer false) validOpts).1.readyResolved = true) :=
  ⟨rfl, rfl, claim_C10_first_init_returns_undefined constTrueEnv natClock
    (newDatalayer false) validOpts .undefined rfl rfl⟩

/-- C6 counterexample: a validation failure does NOT leave the
orchestrator's state entirely unchanged: after a failed
`initialize({data: {page: {}}, config: {k: 1}})` on a fresh datalayer the
global config (and global data) have been overwritten with the supplied
values, because the source stores both before validating. -/
theorem claim_C6_counterexample :
    (dlInit constTrueEnv natClock (newDatalayer false) badPageOpts).2
      = .error (.jsError "Supplied DALPageData is invalid or missing")
  ∧ (dlInit constTrueEnv natClock (newDatalayer false) badPageOpts).1.globalConfig
      = .object [("k", .number 1)]
  ∧ ¬((dlInit constTrueEnv natClock (newDatalayer false) badPageOpts).1.globalConfig
      = (newDatalayer false).globalConfig) :=
  ⟨rfl, rfl, fun h => nomatch h⟩

/-- C6 (amended): when validation fails, the error is thrown
synchronously; the state remains uninitialized, the plugin list is
untouched, the readiness promise is neither resolved nor rejected, and a
retry with corrected input behaves as a first call — however, contrary
to the claim, `globalData` and `globalConfig` are overwritten with the
supplied (defaulted) values before validation runs. -/
theorem claim_C6_validation_failure_state (env : FnEnv) (clock : Nat → Nat)
    (st : DLState) (opts : InitOptions) (hinit : st.inited = false)
    (hbad : (pageDataOk (jsOr opts.data (.object []))
        && siteDataOk (jsOr opts.data (.object []))
        && userDataOk (jsOr opts.data (.object []))) = false) :
    dlInit env clock st opts
      = ({ st with globalData := jsOr opts.data (.object []),
                   globalConfig := jsOr opts.config (.object []) },
         .error (validationErr (jsOr opts.data (.object []))))
  ∧ (dlInit env clock st opts).1.inited = false
  ∧ (dlInit env clock st opts).1.plugins = st.plugins
  ∧ (dlInit env clock st opts).1.readyResolved = st.readyResolved
  ∧ (dlInit env clock st opts).1.readyRejected = st.readyRejected := by
  have h := dlInit_validation_failure env clock st opts hinit hbad
  exact ⟨h, by simp [h, hinit], by simp [h], by simp [h], by simp [h]⟩

/-- C6 witness: the concrete failing initialization of the
counterexample, via the general theorem. -/
theorem claim_C6_validation_failure_state_witness :
    ((newDatalayer false).inited = false
      ∧ (pageDataOk (jsOr badPageOpts.data (.object []))
          && siteDataOk (jsOr badPageOpts.data (.object []))
          && userDataOk (jsOr badPageOpts.data (.object []))) = false)
  ∧ dlInit constTrueEnv natClock (newDatalayer false) badPageOpts
      = ({ newDatalayer false with
            globalData := jsOr badPageOpts.data (.object []),
            globalConfig := jsOr badPageOpts.config (.object []) },
         .error (validationErr (jsOr badPageOpts.data (.object []))))
  ∧ (dlInit constTrueEnv natClock (newDatalayer false) badPageOpts).1.inited = false :=
  ⟨⟨rfl, rfl⟩,
   (claim_C6_validation_failure_state constTrueEnv natClock (newDatalayer false)
     badPageOpts rfl rfl).1,
   (claim_C6_validation_failure_state constTrueEnv natClock (newDatalayer false)
     badPageOpts rfl rfl).2.1⟩

/-- C5: validation checks run in the fixed order page, site, user, the
first violated check's error masking later ones: the page-data error is
thrown unless `data.page.type` and `data.page.name` are both non-empty;
otherwise the site-data error is thrown unless `data.site.id` is
non-empty; otherwise the user-data error is thrown unless `data.user` is
present (truthy). -/
theorem claim_C5_validation_order (env : FnEnv) (clock : Nat → Nat) (st : DLState)
    (cfg : JSVal) (pl : List PluginOption) (pt pn si : String) (u : JSVal)
    (hinit : st.inited = false) :
    ((pt = "" ∨ pn = "") → (dlInit env clock st
        { data := pageSiteUserData pt pn si u, config := cfg, plugins := pl }).2
        = .error (.jsError "Supplied DALPageData is invalid or missing"))
  ∧ (¬(pt = "") → ¬(pn = "") → si = "" → (dlInit env clock st
        { data := pageSiteUserData pt pn si u, config := cfg, plugins := pl }).2
        = .error (.jsError "Supplied DALSiteData is invalid or missing"))
  ∧ (¬(pt = "") → ¬(pn = "") → ¬(si = "") → u.truthy = false → (dlInit env clock st
        { data := pageSiteUserData pt pn si u, config := cfg, plugins := pl }).2
        = .error (.jsError "Supplied DALUserData is invalid or missing")) := by
  have hj : jsOr (pageSiteUserData pt pn si u) (.object []) = pageSiteUserData pt pn si u := by
    simp [jsOr, pageSiteUserData, JSVal.truthy]
  refine ⟨?_, ?_, ?_⟩
  · intro hor
    have hp : pageDataOk (pageSiteUserData pt pn si u) = false := by
      rcases hor with h | h <;>
        simp [pageDataOk, pageSiteUserData, JSVal.fieldD, JSVal.truthy, List.lookup, h]
    have heq := dlInit_validation_failure env clock st
      { data := pageSiteUserData pt pn si u, config := cfg, plugins := pl } hinit
      (by simp [hj, hp])
    rw [heq]
    simp [validationErr, hj, hp]
  · intro hpt hpn hsi
    have hp : pageDataOk (pageSiteUserData pt pn si u) = true := by
      simp [pageDataOk, pageSiteUserData, JSVal.fieldD, JSVal.truthy, List.lookup, hpt, hpn]
    have hs : siteDataOk (pageSiteUserData pt pn si u) = false := by
      simp [siteDataOk, pageSiteUserData, JSVal.fieldD, JSVal.truthy, List.lookup, hsi]
    have heq := dlInit_validation_failure env clock st
      { data := pageSiteUserData pt pn si u, config := cfg, plugins := pl } hinit
      (by simp [hj, hp, hs])
    rw [heq]
    simp [validationErr, hj, hp, hs]
  · intro hpt hpn hsi hu
    have hp : pageDataOk (pageSiteUserData pt pn si u) = true := by
      simp [pageDataOk, pageSiteUserData, JSVal.fieldD, JSVal.truthy, List.lookup, hpt, hpn]
    have hs : siteDataOk (pageSiteUserData pt pn si u) = true := by
      simp [siteDataOk, pageSiteUserData, JSVal.fieldD, JSVal.truthy, List.lookup, hsi]
    have hu' : userDataOk (pageSiteUserData pt pn si u) = false := by
      simp [userDataOk, pageSiteUserData, JSVal.fieldD, List.lookup]
      exact hu
    have heq := dlInit_validation_failure env clock st
      { data := pageSiteUserData pt pn si u, config := cfg, plugins := pl } hinit
      (by simp [hj, hp, hs, hu'])
    rw [heq]
    simp [validationErr, hj, hp, hs, hu']

/-- C5 witness: the three concrete failing initializations of the
repository's own test suite (empty page type; then empty site id; then
user absent, here a falsy `undefined` user). -/
theorem claim_C5_validation_order_witness :
    (newDatalayer false).inited = false
  ∧ (dlInit constTrueEnv natClock (newDatalayer false)
      { data := pageSiteUserData "" "foo" "mysite" (.object []),
        config := .undefined, plugins := [] }).2
      = .error (.jsError "Supplied DALPageData is invalid or missing")
  ∧ (dlInit constTrueEnv natClock (newDatalayer false)
      { data := pageSiteUserData "bar" "foo" "" (.object []),
        config := .undefined, plugins := [] }).2
      = .error (.jsError "Supplied DALSiteData is invalid or missing")
  ∧ (dlInit constTrueEnv natClock (newDatalayer false)
      { data := pageSiteUserData "bar" "foo" "mysite" .undefined,
        config := .undefined, plugins := [] }).2
      = .error (.jsError "Supplied DALUserData is invalid or missing") :=
  ⟨rfl,
   (claim_C5_validation_order constTrueEnv natClock (newDatalayer false) .undefined []
     "" "foo" "mysite" (.object []) rfl).1 (Or.inl rfl),
   (claim_C5_validation_order constTrueEnv natClock (newDatalayer false) .undefined []
     "bar" "foo" "" (.object []) rfl).2.1 (by decide) (by decide) rfl,
   (claim_C5_validation_order constTrueEnv natClock (newDatalayer false) .undefined []
     "bar" "foo" "mysite" .undefined rfl).2.2 (by decide) (by decide) (by decide) rfl⟩

/-- C9 counterexample: admitting an entity without a callable
`handleEvent` does not fail: `addPlugin` on a fresh datalayer returns
with no exception whatsoever (there is no InvalidSubscriberError anywhere
in the code) and the incapable entity is appended to the plugin list. -/
theorem claim_C9_counterexample :
    (addPlugin (newDatalayer false) noHandlerClass .undefined).2 = none
  ∧ ((addPlugin (newDatalayer false) noHandlerClass .undefined).1.plugins.map
      (fun p => p.pid)) = ["test/noHandler"] :=
  ⟨rfl, rfl⟩

/-- C9 (amended): admission performs no capability check and never
throws for an entity lacking `handleEvent`: `addPlugin` (with empty
queue and a non-nullish global config) raises no exception regardless of
the entity's capabilities; during delivery `sendEventToPlugin` silently
skips an incapable plugin (no exception, no state change, no clock
read); and delivery to the other subscribers is unaffected — an
incapable plugin in front of a capable one leaves the capable one
receiving the event exactly as it otherwise would. -/
theorem claim_C9_no_capability_check :
    (∀ (st : DLState) (cls : PluginClass) (cfg : JSVal),
       st.broadcastQueue = [] → st.globalConfig.notNullish = true →
       (addPlugin st cls cfg).2 = none)
  ∧ (∀ (clock : Nat → Nat) (tc : Nat) (p : PluginInst) (n : String) (d : JSVal),
       p.hasHandleEvent = false → sendEventToPlugin clock tc p n d = (p, tc, none))
  ∧ (∀ (clock : Nat → Nat) (st : DLState) (n : String) (d : JSVal) (p q : PluginInst),
       st.plugins = [p, q] → p.hasHandleEvent = false → q.hasHandleEvent = true →
       q.handlerThrows = false →
       broadcast clock st n d
         = ({ st with
              plugins := [p, { q with
                received := q.received ++ [(n, d, clock st.timeCalls)] }],
              timeCalls := st.timeCalls + 1,
              broadcastQueue := st.broadcastQueue ++ [(n, d)] }, none)) := by
  refine ⟨?_, ?_, ?_⟩
  · intro st cls cfg hq hgc
    cases hgcv : st.globalConfig with
    | undefined =>
      rw [hgcv] at hgc
      exact absurd hgc (by simp [JSVal.notNullish])
    | nullv =>
      rw [hgcv] at hgc
      exact absurd hgc (by simp [JSVal.notNullish])
    | boolean b => simp [addPlugin, hgcv, JSVal.getField, hq]
    | number m => simp [addPlugin, hgcv, JSVal.getField, hq]
    | string s => simp [addPlugin, hgcv, JSVal.getField, hq]
    | object fs => simp [addPlugin, hgcv, JSVal.getField, hq]
    | func f => simp [addPlugin, hgcv, JSVal.getField, hq]
  · intro clock tc p n d hp
    simp [sendEventToPlugin, hp]
  · intro clock st n d p q hps hp hqh hqt
    simp [broadcast, hps, broadcastDeliver, sendEventToPlugin, hp, hqh, hqt]

/-- C9 witness: a concrete incapable entity is admitted without error,
is skipped silently at delivery, and does not disturb delivery to the
capable plugin behind it. -/
theorem claim_C9_no_capability_check_witness :
    ((newDatalayer false).broadcastQueue = []
      ∧ (newDatalayer false).globalConfig.notNullish = true
      ∧ (addPlugin (newDatalayer false) noHandlerClass .undefined).2 = none)
  ∧ (noHandlerInst.hasHandleEvent = false
      ∧ sendEventToPlugin natClock 0 noHandlerInst "x" .undefined = (noHandlerInst, 0, none))
  ∧ (mixedState.plugins = [noHandlerInst, mockInst]
      ∧ broadcast natClock mixedState "x" .undefined
        = ({ mixedState with
              plugins := [noHandlerInst, { mockInst with
                received := mockInst.received ++ [("x", .undefined, natClock mixedState.timeCalls)] }],
              timeCalls := mixedState.timeCalls + 1,
              broadcastQueue := mixedState.broadcastQueue ++ [("x", .undefined)] }, none)) :=
  ⟨⟨rfl, rfl, claim_C9_no_capability_check.1 (newDatalayer false) noHandlerClass .undefined rfl rfl⟩,
   ⟨rfl, claim_C9_no_capability_check.2.1 natClock 0 noHandlerInst "x" .undefined rfl⟩,
   ⟨rfl, claim_C9_no_capability_check.2.2 natClock mixedState "x" .undefined
     noHandlerInst mockInst rfl rfl rfl rfl⟩⟩
